import Mathlib

/-!
Verification development for the Kaspa wallet-flow tracer
(`trace_kaspa_fullhistory.py`).

The Python source is shallowly embedded below:
* API transaction records become optional-field structures (`Inp`, `Out`,
  `RawTx`); an element of a fetched page that is not a dict is `TxEntry.notDict`.
* The network is an oracle `Nat → FetchResult` giving the response to the
  i-th request; the page loop is fuel-bounded by `max_pages`, exactly as in
  the source.
* Python float arithmetic on attributed amounts is modelled by exact
  rational arithmetic (`ℚ`).
* Python `datetime` values are modelled by `PyDateTime`; comparing an
  offset-aware value with a naive one is the `Except.error` case of `py_lt`,
  mirroring the `TypeError` that `datetime.__lt__` raises.
* Uncaught Python exceptions (e.g. the `AttributeError` from
  `data[-1].get(...)` when the last page entry is not a dict) are modelled
  by `Except.error` / a `crashed` flag.
-/

set_option maxRecDepth 10000

/-- An entry of a transaction's `inputs` list (source lines 125-127):
`previous_outpoint_address` and `previous_outpoint_amount` may be absent. -/
structure Inp where
  previous_outpoint_address : Option String
  previous_outpoint_amount : Option Int
deriving DecidableEq

/-- An entry of a transaction's `outputs` list (source lines 134-136). -/
structure Out where
  script_public_key_address : Option String
  amount : Option Int
deriving DecidableEq

/-- A transaction dict from a fetched page (source lines 118-121): every
field the tracer reads is optional, `None` meaning the key is absent. -/
structure RawTx where
  transaction_id : Option String
  txId : Option String
  block_time : Option Nat
  inputs : Option (List Inp)
  outputs : Option (List Out)
deriving DecidableEq

/-- One element of a fetched page: either a transaction dict or a
non-dict entry, which the loop skips with a diagnostic (source line 114). -/
inductive TxEntry where
  | notDict : TxEntry
  | tx : RawTx → TxEntry
deriving DecidableEq

/-- The outcome of one HTTP page request (source lines 101-111):
a transport/JSON error, a body that is not a list, or a list of entries. -/
inductive FetchResult where
  | err : FetchResult
  | notList : FetchResult
  | page : List TxEntry → FetchResult
deriving DecidableEq

/-- One emitted flow edge (source lines 139-145). `amount_kas` is modelled
as an exact rational where the source uses Python floats. -/
structure Record where
  tx_id : String
  timestamp : String
  sender : String
  recipient : String
  amount_kas : ℚ
deriving DecidableEq

/-! ## Timestamp formatting (source lines 15-16) -/

/-- Gregorian civil date from days since the Unix epoch
(standard era-based conversion, as performed by `datetime.fromtimestamp`). -/
def civilFromDays (z0 : Nat) : Nat × Nat × Nat :=
  let z := z0 + 719468
  let era := z / 146097
  let doe := z % 146097
  let yoe := (doe - doe / 1460 + doe / 36524 - doe / 146096) / 365
  let y := yoe + era * 400
  let doy := doe - (365 * yoe + yoe / 4 - yoe / 100)
  let mp := (5 * doy + 2) / 153
  let d := doy - (153 * mp + 2) / 5 + 1
  let m := if mp < 10 then mp + 3 else mp - 9
  (if m ≤ 2 then y + 1 else y, m, d)

/-- Zero-pad a number to two digits, as `datetime.isoformat` does. -/
def pad2 (n : Nat) : String :=
  if n < 10 then "0" ++ toString n else toString n

/-- Zero-pad a microsecond count to six digits. -/
def pad6 (n : Nat) : String :=
  if n < 10 then "00000" ++ toString n
  else if n < 100 then "0000" ++ toString n
  else if n < 1000 then "000" ++ toString n
  else if n < 10000 then "00" ++ toString n
  else if n < 100000 then "0" ++ toString n
  else toString n

/-- `format_timestamp` (source lines 15-16):
`datetime.fromtimestamp(ms / 1000, tz=timezone.utc).isoformat()`.
The result always carries the explicit UTC offset suffix `+00:00`. -/
def format_timestamp (ms : Nat) : String :=
  let secs := ms / 1000
  let micro := ms % 1000 * 1000
  let days := secs / 86400
  let sod := secs % 86400
  let ymd := civilFromDays days
  let datePart := toString ymd.1 ++ "-" ++ pad2 ymd.2.1 ++ "-" ++ pad2 ymd.2.2
  let timePart := pad2 (sod / 3600) ++ ":" ++ pad2 (sod % 3600 / 60) ++ ":" ++ pad2 (sod % 60)
  let fracPart := if micro = 0 then "" else "." ++ pad6 micro
  datePart ++ "T" ++ timePart ++ fracPart ++ "+00:00"

/-! ## The cutoff policy (source lines 18-26) -/

/-- A Python `datetime` value: civil fields plus an optional UTC offset.
`utcOffsetMinutes = none` models a naive datetime. -/
structure PyDateTime where
  year : Nat
  month : Nat
  day : Nat
  hour : Nat
  minute : Nat
  second : Nat
  microsecond : Nat
  utcOffsetMinutes : Option Int
deriving DecidableEq

/-- `CUTOFF_DATE = datetime(2022, 1, 1)` (source line 18): a naive datetime. -/
def CUTOFF_DATE : PyDateTime := ⟨2022, 1, 1, 0, 0, 0, 0, none⟩

/-- Read exactly `k` decimal digits from the front of a character list,
accumulating into `acc`; fails if a non-digit or end of input is hit. -/
def readFixedNat : Nat → Nat → List Char → Option (Nat × List Char)
  | 0, acc, cs => some (acc, cs)
  | k + 1, acc, c :: cs =>
      if c.isDigit then readFixedNat k (acc * 10 + (c.toNat - 48)) cs else none
  | _ + 1, _, [] => none

/-- Consume one expected character from the front of the input. -/
def expectChar (c : Char) : List Char → Option (List Char)
  | c2 :: cs => if c2 = c then some cs else none
  | [] => none

/-- Gregorian leap-year test. -/
def isLeapYear (y : Nat) : Bool :=
  (y % 4 == 0 && y % 100 != 0) || y % 400 == 0

/-- Number of days in a month. -/
def daysInMonth (y m : Nat) : Nat :=
  if m = 2 then (if isLeapYear y then 29 else 28)
  else if m = 4 ∨ m = 6 ∨ m = 9 ∨ m = 11 then 30
  else 31

/-- Range check performed by the `datetime` constructor on dates. -/
def validDate (y m d : Nat) : Bool :=
  1 ≤ y && y ≤ 9999 && 1 ≤ m && m ≤ 12 && 1 ≤ d && d ≤ daysInMonth y m

/-- Range check performed by the `datetime` constructor on times. -/
def validTime (h mi s : Nat) : Bool :=
  h ≤ 23 && mi ≤ 59 && s ≤ 59

/-- Optional fractional-second part: `.fff` or `.ffffff`, as accepted by
`datetime.fromisoformat`; returns microseconds. -/
def readFraction : List Char → Option (Nat × List Char)
  | c :: rest =>
      if c = '.' then
        match readFixedNat 6 0 rest with
        | some (us, rest2) => some (us, rest2)
        | none =>
            match readFixedNat 3 0 rest with
            | some (msec, rest2) => some (msec * 1000, rest2)
            | none => none
      else some (0, c :: rest)
  | [] => some (0, [])

/-- Optional trailing UTC offset `+HH:MM` / `-HH:MM`; returns the offset in
minutes, `none` standing for a naive result. -/
def readOffset : List Char → Option (Option Int × List Char)
  | [] => some (none, [])
  | c :: rest =>
      if c = '+' ∨ c = '-' then
        match readFixedNat 2 0 rest with
        | none => none
        | some (oh, r1) =>
            match expectChar ':' r1 with
            | none => none
            | some r2 =>
                match readFixedNat 2 0 r2 with
                | none => none
                | some (om, r3) =>
                    if oh ≤ 23 && om ≤ 59 then
                      let total : Int := (oh * 60 + om : Nat)
                      some (some (if c = '-' then -total else total), r3)
                    else none
      else none

/-- `datetime.fromisoformat`: `YYYY-MM-DD[<sep>HH:MM:SS[.ffffff][±HH:MM]]`,
returning `none` on any parse or range failure (the `ValueError` case). -/
def fromisoformat (s : String) : Option PyDateTime := do
  let (y, cs1) ← readFixedNat 4 0 s.data
  let cs2 ← expectChar '-' cs1
  let (mo, cs3) ← readFixedNat 2 0 cs2
  let cs4 ← expectChar '-' cs3
  let (dy, cs5) ← readFixedNat 2 0 cs4
  if validDate y mo dy then
    match cs5 with
    | [] => some ⟨y, mo, dy, 0, 0, 0, 0, none⟩
    | _ :: cs6 => do
        let (hh, cs7) ← readFixedNat 2 0 cs6
        let cs8 ← expectChar ':' cs7
        let (mi, cs9) ← readFixedNat 2 0 cs8
        let cs10 ← expectChar ':' cs9
        let (ss, cs11) ← readFixedNat 2 0 cs10
        let (us, cs12) ← readFraction cs11
        let (off, cs13) ← readOffset cs12
        if validTime hh mi ss && cs13.isEmpty then
          some ⟨y, mo, dy, hh, mi, ss, us, off⟩
        else none
  else none

/-- Days from the Unix epoch of a civil date (inverse of `civilFromDays`). -/
def daysFromCivil (y m d : Nat) : Int :=
  let yi : Int := if m ≤ 2 then (y : Int) - 1 else (y : Int)
  let era : Int := Int.fdiv yi 400
  let yoe : Int := yi - era * 400
  let mp : Int := if 2 < m then (m : Int) - 3 else (m : Int) + 9
  let doy : Int := Int.fdiv (153 * mp + 2) 5 + (d : Int) - 1
  let doe : Int := yoe * 365 + Int.fdiv yoe 4 - Int.fdiv yoe 100 + doy
  era * 146097 + doe - 719468

/-- Microseconds from the Unix epoch; a naive datetime is keyed as if its
offset were zero (this matches Python field-wise comparison of two naive
values, and instant comparison of two aware values). -/
def epochMicros (dt : PyDateTime) : Int :=
  (daysFromCivil dt.year dt.month dt.day * 86400
      + (dt.hour : Int) * 3600 + (dt.minute : Int) * 60 + (dt.second : Int)
      - dt.utcOffsetMinutes.getD 0 * 60) * 1000000
    + (dt.microsecond : Int)

/-- Python `<` on datetimes: defined between two naive or two aware values;
comparing a naive with an aware value raises `TypeError` (`Except.error`). -/
def py_lt (a b : PyDateTime) : Except Unit Bool :=
  match a.utcOffsetMinutes, b.utcOffsetMinutes with
  | none, none => Except.ok (decide (epochMicros a < epochMicros b))
  | some _, some _ => Except.ok (decide (epochMicros a < epochMicros b))
  | _, _ => Except.error ()

/-- Python `str.replace`, embedded on character lists with a length fuel
(the pattern is non-empty in every use, so the fuel is never exhausted). -/
def dropPrefixQ : List Char → List Char → Option (List Char)
  | [], cs => some cs
  | p :: ps, c :: cs => if c = p then dropPrefixQ ps cs else none
  | _ :: _, [] => none

/-- Left-to-right, non-overlapping replacement of `pat` by `rep`. -/
def replaceCharsF (pat rep : List Char) : Nat → List Char → List Char
  | _, [] => []
  | 0, cs => cs
  | fuel + 1, c :: cs =>
      match dropPrefixQ pat (c :: cs) with
      | some rest => rep ++ replaceCharsF pat rep fuel rest
      | none => c :: replaceCharsF pat rep fuel cs

/-- Python `s.replace(pat, rep)` for a non-empty pattern. -/
def pyReplace (s pat rep : String) : String :=
  String.mk (replaceCharsF pat.data rep.data s.data.length s.data)

/-- `is_before_cutoff` (source lines 20-26): parse the timestamp after
rewriting a trailing `Z`, compare with `CUTOFF_DATE`, and return `False`
on ANY exception — a parse failure, or the `TypeError` raised when the
parsed datetime is offset-aware while `CUTOFF_DATE` is naive. -/
def is_before_cutoff (timestamp : String) : Bool :=
  match fromisoformat (pyReplace timestamp ("Z") ("+00:00")) with
  | none => false
  | some dt =>
      match py_lt dt CUTOFF_DATE with
      | Except.error _ => false
      | Except.ok b => b

/-- Spec-side reading of "the transaction's timestamp is earlier than the
cutoff" (spec sections 4.2 and 8): parse the timestamp and compare the
instant it denotes with 2022-01-01 00:00 UTC. -/
def timestampBeforeCutoffSpec (s : String) : Bool :=
  match fromisoformat (pyReplace s ("Z") ("+00:00")) with
  | none => false
  | some dt => decide (epochMicros dt < epochMicros CUTOFF_DATE)

/-! ## Attribution engine (`fetch_transactions_all_participants`,
source lines 113-145) -/

/-- One step of the `input_summary` dict aggregation (source line 127):
add `amt` to the entry of sender `s`, inserting at the end if absent —
Python dicts preserve insertion order. -/
def addInput (summary : List (String × Int)) (s : String) (amt : Int) :
    List (String × Int) :=
  match summary with
  | [] => [(s, amt)]
  | (k, v) :: rest =>
      if k = s then (k, v + amt) :: rest else (k, v) :: addInput rest s amt

/-- `input_summary` built over the inputs list (source lines 124-127);
a missing address is `"UNKNOWN"`, a missing amount counts as `0`. -/
def aggregate_inputs (inputs : List Inp) : List (String × Int) :=
  inputs.foldl
    (fun acc inp =>
      addInput acc (inp.previous_outpoint_address.getD ("UNKNOWN"))
        (inp.previous_outpoint_amount.getD 0))
    []

/-- The transaction's aggregated input map (source lines 124-127). -/
def input_summary (t : RawTx) : List (String × Int) :=
  aggregate_inputs (t.inputs.getD [])

/-- `total_input_sompi` (source line 129). -/
def total_input_sompi (t : RawTx) : Int :=
  ((input_summary t).map Prod.snd).sum

/-- `weight = contribution / total_input_sompi` (source line 138),
float division modelled exactly in `ℚ`. -/
def weightQ (t : RawTx) (c : Int) : ℚ :=
  (c : ℚ) / ((total_input_sompi t : Int) : ℚ)

/-- The records emitted for one output (inner loop, source lines 134-145). -/
def attributeOut (t : RawTx) (out : Out) : List Record :=
  (input_summary t).map fun p =>
    { tx_id := t.transaction_id.getD (t.txId.getD ("UNKNOWN"))
      timestamp := format_timestamp (t.block_time.getD 0)
      sender := p.1
      recipient := out.script_public_key_address.getD ("UNKNOWN")
      amount_kas := ((out.amount.getD 0 : Int) : ℚ) * weightQ t p.2 / 100000000 }

/-- All records emitted for one transaction (source lines 113-145): skipped
entirely when the aggregated input total is zero (source lines 130-131). -/
def attribute_transaction (t : RawTx) : List Record :=
  if total_input_sompi t = 0 then []
  else (t.outputs.getD []).flatMap (attributeOut t)

/-- Records produced from one fetched page in the all-participants variant:
non-dict entries are skipped, every dict goes through attribution. -/
def processPageA (entries : List TxEntry) : List Record :=
  entries.flatMap fun e =>
    match e with
    | TxEntry.notDict => []
    | TxEntry.tx t => attribute_transaction t

/-- Sum of the emitted amounts of a list of records. -/
def sumAmounts (rs : List Record) : ℚ :=
  (rs.map Record.amount_kas).sum

/-! ## Page loop (source lines 92-149) -/

/-- Result of one run of the page loop: the accumulated records, the list of
`before` cursor values of the issued requests, and whether the run ended in
an uncaught exception (`data[-1].get` on a non-dict last entry). -/
structure LoopOut where
  records : List Record
  requests : List Nat
  crashed : Bool
deriving DecidableEq

/-- Cursor update (source line 147): `before = data[-1].get("block_time", before)`.
`none` models the uncaught `AttributeError` when the last page entry is not
a dict (the loop only reaches this line with a non-empty page). -/
def nextBefore (entries : List TxEntry) (before : Nat) : Option Nat :=
  match entries.getLast? with
  | some (TxEntry.tx t) => some (t.block_time.getD before)
  | _ => none

/-- The fuel-bounded page loop of `fetch_transactions_all_participants`
(source lines 95-147): the oracle gives the response to the i-th request;
a transport error, a non-list body or an empty page ends the walk. -/
def loopA (oracle : Nat → FetchResult) : Nat → Nat → Nat → LoopOut
  | 0, _, _ => ⟨[], [], false⟩
  | fuel + 1, i, b =>
      match oracle i with
      | FetchResult.err => ⟨[], [b], false⟩
      | FetchResult.notList => ⟨[], [b], false⟩
      | FetchResult.page [] => ⟨[], [b], false⟩
      | FetchResult.page (e :: es) =>
          let recs := processPageA (e :: es)
          match nextBefore (e :: es) b with
          | none => ⟨recs, [b], true⟩
          | some b2 =>
              let rest := loopA oracle fuel (i + 1) b2
              ⟨recs ++ rest.records, b :: rest.requests, rest.crashed⟩

/-- `fetch_transactions_all_participants` (source lines 87-149): `b0` is the
initial `before` cursor (wall-clock "now" in the source), `max_pages`
defaults to 100000. -/
def fetch_transactions_all_participants (oracle : Nat → FetchResult)
    (b0 max_pages : Nat) : LoopOut :=
  loopA oracle max_pages 0 b0

/-- The dataset the fetch returns to `trace_wallet`; `Except.error` models
the uncaught exception propagating out of the fetch. -/
def fetch_all_records (oracle : Nat → FetchResult) (b0 max_pages : Nat) :
    Except Unit (List Record) :=
  let o := fetch_transactions_all_participants oracle b0 max_pages
  if o.crashed then Except.error () else Except.ok o.records

/-! ## trace_wallet (source lines 151-173) -/

/-- The row predicate of source line 160:
`(txs["sender"] == address) | (txs["recipient"] == address)`. -/
def involves (address : String) (r : Record) : Bool :=
  r.sender == address || r.recipient == address

/-- The pandas filter of source line 160: on an empty dataset the frame has
no columns, so the column lookup raises `KeyError` (`Except.error`);
otherwise it keeps exactly the rows satisfying `involves`. -/
def pandas_filter_involving (txs : List Record) (address : String) :
    Except Unit (List Record) :=
  if txs.isEmpty then Except.error ()
  else Except.ok (txs.filter (involves address))

/-- The filtered dataset computed in `trace_wallet` (source lines 156-163):
the bare `except` keeps the full dataset when the filter raises. -/
def trace_wallet_filter (txs : List Record) (address : String) : List Record :=
  match pandas_filter_involving txs address with
  | Except.ok f => f
  | Except.error _ => txs

/-- `trace_wallet` (source lines 151-173), returning the pair of datasets it
persists: the full one and the filtered one. `Except.error` models a crash
inside the fetch, in which case nothing is written. -/
def trace_wallet (oracle : Nat → FetchResult) (b0 max_pages : Nat)
    (address : String) : Except Unit (List Record × List Record) :=
  match fetch_all_records oracle b0 max_pages with
  | Except.error e => Except.error e
  | Except.ok txs => Except.ok (txs, trace_wallet_filter txs address)

/-! ## The per-transaction records of the other variant,
`fetch_transactions` (source lines 51-79) -/

/-- The records `fetch_transactions` builds for one transaction
(source lines 56-79): one per input × output pair, the full output amount on
each (no weighting in this variant). -/
def tx_records_v1 (t : RawTx) : List Record :=
  (t.inputs.getD []).flatMap fun inp =>
    (t.outputs.getD []).map fun out =>
      { tx_id := t.transaction_id.getD (t.txId.getD ("UNKNOWN"))
        timestamp := format_timestamp (t.block_time.getD 0)
        sender := inp.previous_outpoint_address.getD ("UNKNOWN")
        recipient := out.script_public_key_address.getD ("UNKNOWN")
        amount_kas := ((out.amount.getD 0 : Int) : ℚ) / 100000000 }

/-- The fallback chain of source lines 56 and 118, written as the spec
describes it: `transaction_id` if present, else `txId`, else `"UNKNOWN"`. -/
def txIdChain (t : RawTx) : String :=
  match t.transaction_id with
  | some s => s
  | none =>
      match t.txId with
      | some s => s
      | none => "UNKNOWN"

/-! ## Concrete inputs used by witnesses and counterexamples -/

/-- The traced wallet address (source line 13). -/
def ROOT : String := "kaspa:qpz2vgvlxhmyhmt22h538pjzmvvd52nuut80y5zulgpvyerlskvvwm7n4uk5a"

/-- A transaction with two senders and one output (C1 witness). -/
def txW1 : RawTx :=
  ⟨some ("w1"), none, some 1000,
    some [⟨some ("addr-a"), some 60000000⟩, ⟨some ("addr-b"), some 20000000⟩],
    some [⟨some ("addr-x"), some 100000000⟩]⟩

/-- A transaction timestamped 2021-01-01, i.e. before the cutoff
(C2 counterexample). -/
def txC2 : RawTx :=
  ⟨some ("deadbeef"), none, some 1609459200000,
    some [⟨some ROOT, some 500000000⟩],
    some [⟨some ("kaspa:other"), some 500000000⟩]⟩

/-- A page feed whose first page holds only `txC2` (C2 counterexample). -/
def oracleC2 : Nat → FetchResult := fun i =>
  if i = 0 then FetchResult.page [TxEntry.tx txC2] else FetchResult.page []

/-- The edge the tracer emits for `txC2` (C2 counterexample). -/
def recC2 : Record :=
  ⟨"deadbeef", "2021-01-01T00:00:00+00:00", ROOT, "kaspa:other", 5⟩

/-- A transaction whose inputs sum to zero (C4 witness). -/
def txW4 : RawTx :=
  ⟨some ("w4"), none, some 5,
    some [⟨some ("addr-a"), some 0⟩, ⟨none, none⟩],
    some [⟨some ("addr-b"), some 777⟩]⟩

/-- A one-transaction page used for the C5 witness. -/
def txC5 : RawTx :=
  ⟨some ("c5"), none, some 1650000000000,
    some [⟨some ("s"), some 100⟩], some [⟨some ("r"), some 100⟩]⟩

/-- A page feed: one page with `txC5`, then exhausted (C5 witness). -/
def oracleC5 : Nat → FetchResult := fun i =>
  if i = 0 then FetchResult.page [TxEntry.tx txC5] else FetchResult.page []

/-- First page transaction of the C6 scenario. -/
def txC6a : RawTx :=
  ⟨some ("a1"), none, some 1650000000000,
    some [⟨some ("s1"), some 100000000⟩], some [⟨some ("r1"), some 100000000⟩]⟩

/-- Second page transaction of the C6 scenario. -/
def txC6b : RawTx :=
  ⟨some ("a2"), none, some 1640000000000,
    some [⟨some ("s2"), some 100000000⟩], some [⟨some ("r2"), some 100000000⟩]⟩

/-- First page of the C6 scenario. -/
def pageC6a : List TxEntry := [TxEntry.tx txC6a]

/-- Second page of the C6 scenario. -/
def pageC6b : List TxEntry := [TxEntry.tx txC6b]

/-- Page feed of the C6 scenario: two non-empty pages, then an empty one. -/
def oracleC6 : Nat → FetchResult := fun i =>
  if i = 0 then FetchResult.page pageC6a
  else if i = 1 then FetchResult.page pageC6b
  else FetchResult.page []

/-- A feed whose first response is not a list (C6 witness). -/
def oracleC6nl : Nat → FetchResult := fun _ => FetchResult.notList

/-- A two-edge dataset (C7 witness). -/
def dsW7 : List Record :=
  [⟨"t1", "ts", "A", "B", 1⟩, ⟨"t2", "ts", "C", "D", 2⟩]

/-- A transaction with no `block_time` field (C8 witness). -/
def txW8 : RawTx :=
  ⟨some ("w8"), none, none,
    some [⟨some ("addr-a"), some 100⟩], some [⟨some ("addr-b"), some 200⟩]⟩

/-- A feed that is exhausted immediately (C9 witness). -/
def oracleC9 : Nat → FetchResult := fun _ => FetchResult.page []

/-- A transaction whose id comes from the `txId` fallback (C10 witness). -/
def txW10 : RawTx :=
  ⟨none, some ("fallback-id"), some 0,
    some [⟨some ("addr-a"), some 100⟩], some [⟨some ("addr-b"), some 200⟩]⟩

/-- The edge emitted for `txW10` (C10 witness). -/
def recW10 : Record :=
  ⟨"fallback-id", "1970-01-01T00:00:00+00:00", "addr-a", "addr-b", 1 / 500000⟩

/-! ## Helper lemmas -/

theorem attribute_transaction_timestamp (t : RawTx) (r : Record)
    (h : r ∈ attribute_transaction t) :
    r.timestamp = format_timestamp (t.block_time.getD 0) := by
  unfold attribute_transaction at h
  split at h
  · simp at h
  · rw [List.mem_flatMap] at h
    obtain ⟨out, _, hmem⟩ := h
    unfold attributeOut at hmem
    rw [List.mem_map] at hmem
    obtain ⟨p, _, hr⟩ := hmem
    rw [← hr]

theorem attribute_transaction_txid (t : RawTx) (r : Record)
    (h : r ∈ attribute_transaction t) :
    r.tx_id = t.transaction_id.getD (t.txId.getD ("UNKNOWN")) := by
  unfold attribute_transaction at h
  split at h
  · simp at h
  · rw [List.mem_flatMap] at h
    obtain ⟨out, _, hmem⟩ := h
    unfold attributeOut at hmem
    rw [List.mem_map] at hmem
    obtain ⟨p, _, hr⟩ := hmem
    rw [← hr]

theorem tx_records_v1_txid (t : RawTx) (r : Record)
    (h : r ∈ tx_records_v1 t) :
    r.tx_id = t.transaction_id.getD (t.txId.getD ("UNKNOWN")) := by
  unfold tx_records_v1 at h
  rw [List.mem_flatMap] at h
  obtain ⟨inp, _, hmem⟩ := h
  rw [List.mem_map] at hmem
  obtain ⟨out, _, hr⟩ := hmem
  rw [← hr]

theorem sum_map_div_outs (l : List Out) (f : Out → ℚ) (c : ℚ) :
    (l.map fun o => f o / c).sum = (l.map f).sum / c := by
  induction l with
  | nil => simp
  | cons x l ih => simp [ih, add_div]

theorem cast_sum_outs (l : List Out) :
    (l.map fun o => ((o.amount.getD 0 : Int) : ℚ)).sum
      = (((l.map fun o => o.amount.getD 0).sum : Int) : ℚ) := by
  induction l with
  | nil => simp
  | cons x l ih => simp [ih]

theorem weighted_sum_eq (S : List (String × Int)) (A T : ℚ) :
    (S.map fun p => A * (((p.2 : Int) : ℚ) / T) / 100000000).sum
      = A * ((((S.map Prod.snd).sum : Int) : ℚ) / T) / 100000000 := by
  induction S with
  | nil => simp
  | cons a S ih =>
      simp only [List.map_cons, List.sum_cons, ih]
      push_cast
      ring

theorem weight_list_sum (S : List (String × Int)) (T : ℚ) :
    (S.map fun p => ((p.2 : Int) : ℚ) / T).sum
      = (((S.map Prod.snd).sum : Int) : ℚ) / T := by
  induction S with
  | nil => simp
  | cons a S ih =>
      simp only [List.map_cons, List.sum_cons, ih]
      push_cast
      ring

theorem sumAmounts_append (xs ys : List Record) :
    sumAmounts (xs ++ ys) = sumAmounts xs + sumAmounts ys := by
  simp [sumAmounts]

theorem sumAmounts_flatMap (l : List Out) (f : Out → List Record) :
    sumAmounts (l.flatMap f) = (l.map fun o => sumAmounts (f o)).sum := by
  induction l with
  | nil => simp [sumAmounts]
  | cons x l ih => simp only [List.flatMap_cons, sumAmounts_append, ih,
      List.map_cons, List.sum_cons]

theorem filter_idem_records (p : Record → Bool) (l : List Record) :
    (l.filter p).filter p = l.filter p := by
  induction l with
  | nil => rfl
  | cons x l ih =>
      by_cases h : p x
      · simp [List.filter_cons, h, ih]
      · simp [List.filter_cons, h, ih]

/-! ## Claim theorems -/

/-- C1: for every transaction whose aggregated input total is nonzero, the
per-sender weights sum to 1, the amounts emitted for each individual output
sum to that output's amount / 1e8, and the amounts over all emitted edges
sum to the sum of the output amounts / 1e8 (float arithmetic modelled
exactly in `ℚ`). -/
theorem attribution_conserves (t : RawTx) (h : total_input_sompi t ≠ 0) :
    ((input_summary t).map fun p => weightQ t p.2).sum = 1
  ∧ (∀ out ∈ t.outputs.getD [], sumAmounts (attributeOut t out)
        = ((out.amount.getD 0 : Int) : ℚ) / 100000000)
  ∧ sumAmounts (attribute_transaction t)
      = ((((t.outputs.getD []).map fun o => o.amount.getD 0).sum : Int) : ℚ)
          / 100000000 := by
  have hQ : ((total_input_sompi t : Int) : ℚ) ≠ 0 := Int.cast_ne_zero.mpr h
  have hsum : ((input_summary t).map Prod.snd).sum = total_input_sompi t := rfl
  have hout : ∀ out ∈ t.outputs.getD [], sumAmounts (attributeOut t out)
      = ((out.amount.getD 0 : Int) : ℚ) / 100000000 := by
    intro out _
    have hcomp : sumAmounts (attributeOut t out)
        = ((input_summary t).map fun p =>
            ((out.amount.getD 0 : Int) : ℚ)
              * (((p.2 : Int) : ℚ) / ((total_input_sompi t : Int) : ℚ))
              / 100000000).sum := by
      unfold sumAmounts attributeOut weightQ
      rw [List.map_map]
      rfl
    rw [hcomp, weighted_sum_eq, hsum, div_self hQ, mul_one]
  refine ⟨?_, hout, ?_⟩
  · have hw : ((input_summary t).map fun p => weightQ t p.2).sum
        = (((input_summary t).map Prod.snd).sum : ℚ)
            / ((total_input_sompi t : Int) : ℚ) := by
      unfold weightQ
      rw [weight_list_sum]
    rw [hw, hsum, div_self hQ]
  · unfold attribute_transaction
    rw [if_neg h, sumAmounts_flatMap,
      List.map_congr_left hout, sum_map_div_outs, cast_sum_outs]

/-- C1 witness: the weights and totals at a concrete two-sender,
one-output transaction. -/
theorem attribution_conserves_witness :
    ((input_summary txW1).map fun p => weightQ txW1 p.2).sum = 1
  ∧ sumAmounts (attribute_transaction txW1)
      = ((((txW1.outputs.getD []).map fun o => o.amount.getD 0).sum : Int) : ℚ)
          / 100000000 :=
  ⟨(attribution_conserves txW1 (by decide)).1,
    (attribution_conserves txW1 (by decide)).2.2⟩

/-- C4: a transaction whose aggregated input total is zero emits no edges
and the page loop simply continues with the remaining entries, so the
weight division is never reached with a zero divisor. -/
theorem zero_total_input_skipped (t : RawTx) (h : total_input_sompi t = 0) :
    attribute_transaction t = []
  ∧ ∀ rest : List TxEntry,
      processPageA (TxEntry.tx t :: rest) = processPageA rest := by
  constructor
  · unfold attribute_transaction
    rw [if_pos h]
  · intro rest
    unfold processPageA
    rw [List.flatMap_cons]
    simp [attribute_transaction, h]

/-- C4 witness: a concrete transaction whose only inputs are zero-valued
or amount-less emits no edges. -/
theorem zero_total_input_skipped_witness :
    attribute_transaction txW4 = [] :=
  (zero_total_input_skipped txW4 (by decide)).1

/-- C7: the filtered dataset computed in `trace_wallet` is exactly the
filter keeping edges whose sender or recipient is the tracked address
(hence no edge is dropped or added, and order is preserved: it is a
sublist), and the projection is idempotent. -/
theorem projection_exact (ds : List Record) (a : String) :
    trace_wallet_filter ds a = ds.filter (involves a)
  ∧ List.Sublist (trace_wallet_filter ds a) ds
  ∧ (∀ r : Record, r ∈ trace_wallet_filter ds a ↔ r ∈ ds ∧ involves a r = true)
  ∧ trace_wallet_filter (trace_wallet_filter ds a) a
      = trace_wallet_filter ds a := by
  have hfe : trace_wallet_filter ds a = ds.filter (involves a) := by
    unfold trace_wallet_filter pandas_filter_involving
    cases ds with
    | nil => rfl
    | cons x l => rfl
  refine ⟨hfe, ?_, ?_, ?_⟩
  · rw [hfe]
    exact List.filter_sublist ds
  · intro r
    rw [hfe]
    simp [List.mem_filter]
  · rw [hfe]
    have h2 : trace_wallet_filter (ds.filter (involves a)) a
        = (ds.filter (involves a)).filter (involves a) := by
      unfold trace_wallet_filter pandas_filter_involving
      cases hd : ds.filter (involves a) with
      | nil => rfl
      | cons x l => rfl
    rw [h2, filter_idem_records]

/-- C7 witness: the projection at a concrete two-edge dataset. -/
theorem projection_exact_witness :
    trace_wallet_filter dsW7 ("A") = dsW7.filter (involves ("A")) :=
  (projection_exact dsW7 ("A")).1

/-- C8: a transaction without a `block_time` field is attributed exactly as
if its block time were 0, and every edge it emits carries the Unix-epoch
timestamp string (no skip, no exception: the embedding is total). -/
theorem missing_block_time_epoch (t : RawTx) (h : t.block_time = none) :
    attribute_transaction t
        = attribute_transaction { t with block_time := some 0 }
  ∧ ∀ r ∈ attribute_transaction t,
      r.timestamp = "1970-01-01T00:00:00+00:00" := by
  constructor
  · rcases t with ⟨tid, txid, bt, ins, outs⟩
    simp only at h
    subst h
    rfl
  · intro r hr
    rw [attribute_transaction_timestamp t r hr, h]
    decide

/-- C8 witness: a concrete transaction lacking `block_time`. -/
theorem missing_block_time_epoch_witness :
    attribute_transaction txW8
      = attribute_transaction { txW8 with block_time := some 0 } :=
  (missing_block_time_epoch txW8 rfl).1

/-- C10: in both fetch variants every emitted edge's `tx_id` is
`transaction_id` if present, else `txId` if present, else `"UNKNOWN"`. -/
theorem tx_id_fallback_chain (t : RawTx) :
    txIdChain t = t.transaction_id.getD (t.txId.getD ("UNKNOWN"))
  ∧ (∀ r ∈ attribute_transaction t, r.tx_id = txIdChain t)
  ∧ (∀ r ∈ tx_records_v1 t, r.tx_id = txIdChain t) := by
  have hc : txIdChain t = t.transaction_id.getD (t.txId.getD ("UNKNOWN")) := by
    rcases t with ⟨tid, txid, bt, ins, outs⟩
    cases tid with
    | some s => rfl
    | none => cases txid with
      | some s => rfl
      | none => rfl
  refine ⟨hc, ?_, ?_⟩
  · intro r hr
    rw [attribute_transaction_txid t r hr, hc]
  · intro r hr
    rw [tx_records_v1_txid t r hr, hc]

/-- C10 witness: the edge of a transaction with only a `txId` field gets
that value as its `tx_id`. -/
theorem tx_id_fallback_chain_witness : recW10.tx_id = txIdChain txW10 :=
  (tx_id_fallback_chain txW10).2.1 recW10 (by
    rw [show attribute_transaction txW10 = [recW10] by with_unfolding_all rfl]
    exact List.mem_singleton.mpr rfl)

/-- C3 (code bug): the cutoff comparison is broken for the offset-aware
timestamps the tracer itself produces. `"2021-06-01T00:00:00+00:00"` parses
successfully to a datetime whose instant is strictly earlier than the
cutoff, yet `is_before_cutoff` returns `false`: comparing the aware value
with the naive `CUTOFF_DATE` raises `TypeError`, which the blanket handler
swallows. (Genuine parse failures do return `false`, as the claim says.) -/
theorem is_before_cutoff_aware_bug :
    fromisoformat ("2021-06-01T00:00:00+00:00")
        = some ⟨2021, 6, 1, 0, 0, 0, 0, some 0⟩
  ∧ epochMicros ⟨2021, 6, 1, 0, 0, 0, 0, some 0⟩ < epochMicros CUTOFF_DATE
  ∧ py_lt ⟨2021, 6, 1, 0, 0, 0, 0, some 0⟩ CUTOFF_DATE = Except.error ()
  ∧ is_before_cutoff ("2021-06-01T00:00:00+00:00") = false
  ∧ is_before_cutoff ("garbage") = false :=
  ⟨by decide, by decide, rfl, by decide, by decide⟩

/-- C9: when the fetch completes with an empty dataset, `trace_wallet` does
not raise — the pandas column lookup fails (`KeyError`), the bare `except`
falls back to the full (empty) dataset, and both outputs are written empty. -/
theorem empty_dataset_graceful (oracle : Nat → FetchResult) (b0 mp : Nat)
    (a : String) (h : fetch_all_records oracle b0 mp = Except.ok []) :
    trace_wallet oracle b0 mp a = Except.ok ([], [])
  ∧ pandas_filter_involving [] a = Except.error () := by
  constructor
  · unfold trace_wallet
    rw [h]
    rfl
  · rfl

/-- C9 witness: a feed that is exhausted on the first request. -/
theorem empty_dataset_graceful_witness :
    trace_wallet oracleC9 137 5 ("kaspa:x") = Except.ok ([], [])
  ∧ pandas_filter_involving [] ("kaspa:x") = Except.error () :=
  empty_dataset_graceful oracleC9 137 5 ("kaspa:x") rfl

/-- C6: the page loop issues at most `max_pages` requests (the fuel) and
stops immediately on a non-list or empty page, treating it as history
exhausted rather than an error; in the concrete scenario whose third page
is empty it accumulates the records of exactly the first two pages, issues
three requests, and ends without error (`crashed = false`). -/
theorem fetch_loop_bounded :
    (∀ (oracle : Nat → FetchResult) (fuel i b : Nat),
        (loopA oracle fuel i b).requests.length ≤ fuel)
  ∧ (∀ (oracle : Nat → FetchResult) (fuel i b : Nat),
        oracle i = FetchResult.notList →
        loopA oracle (fuel + 1) i b = ⟨[], [b], false⟩)
  ∧ (∀ (oracle : Nat → FetchResult) (fuel i b : Nat),
        oracle i = FetchResult.page [] →
        loopA oracle (fuel + 1) i b = ⟨[], [b], false⟩)
  ∧ loopA oracleC6 10 0 1700000000000
      = ⟨processPageA pageC6a ++ processPageA pageC6b,
          [1700000000000, 1650000000000, 1640000000000], false⟩ := by
  refine ⟨?_, ?_, ?_, ?_⟩
  · intro oracle fuel
    induction fuel with
    | zero => intro i b; simp [loopA]
    | succ f ih =>
        intro i b
        cases ho : oracle i with
        | err => simp [loopA, ho]
        | notList => simp [loopA, ho]
        | page es =>
            cases es with
            | nil => simp [loopA, ho]
            | cons e es2 =>
                cases hnb : nextBefore (e :: es2) b with
                | none => simp [loopA, ho, hnb]
                | some b2 =>
                    simp only [loopA, ho, hnb, List.length_cons]
                    exact Nat.succ_le_succ (ih (i + 1) b2)
  · intro oracle fuel i b h
    simp [loopA, h]
  · intro oracle fuel i b h
    simp [loopA, h]
  · with_unfolding_all rfl

/-- C6 witness: a first response that is not a list stops the loop after
one request with no records. -/
theorem fetch_loop_bounded_witness :
    loopA oracleC6nl 4 0 55 = ⟨[], [55], false⟩ :=
  fetch_loop_bounded.2.1 oracleC6nl 3 0 55 rfl

theorem nextBefore_some {entries : List TxEntry} {b b2 : Nat}
    (h : nextBefore entries b = some b2) :
    ∃ t, entries.getLast? = some (TxEntry.tx t) ∧ b2 = t.block_time.getD b := by
  unfold nextBefore at h
  cases hg : entries.getLast? with
  | none => rw [hg] at h; cases h
  | some e =>
      cases e with
      | notDict => rw [hg] at h; cases h
      | tx t =>
          rw [hg] at h
          exact ⟨t, rfl, (Option.some_inj.mp h).symm⟩

theorem loopA_requests_head (oracle : Nat → FetchResult) (fuel i b : Nat) :
    (loopA oracle (fuel + 1) i b).requests.getD 0 0 = b := by
  cases ho : oracle i with
  | err => simp [loopA, ho]
  | notList => simp [loopA, ho]
  | page es =>
      cases es with
      | nil => simp [loopA, ho]
      | cons e es2 =>
          cases hnb : nextBefore (e :: es2) b with
          | none => simp [loopA, ho, hnb]
          | some b2 => simp [loopA, ho, hnb]

/-- C5: whenever the loop issues a request after request `j`, the page
received for request `j` ended in a transaction dict, and the next request's
`before` cursor is that transaction's `block_time` when the field is
present, and the previous cursor unchanged when it is absent
(`Option.getD` captures both cases of source line 147). -/
theorem cursor_advance (oracle : Nat → FetchResult) (fuel i b j : Nat)
    (hj : j + 1 < (loopA oracle fuel i b).requests.length) :
    ∃ entries t, oracle (i + j) = FetchResult.page entries
      ∧ entries.getLast? = some (TxEntry.tx t)
      ∧ (loopA oracle fuel i b).requests.getD (j + 1) 0
          = t.block_time.getD ((loopA oracle fuel i b).requests.getD j 0) := by
  induction fuel generalizing i b j with
  | zero => simp [loopA] at hj
  | succ fuel ih =>
      cases ho : oracle i with
      | err => simp [loopA, ho] at hj
      | notList => simp [loopA, ho] at hj
      | page es =>
          cases es with
          | nil => simp [loopA, ho] at hj
          | cons e es2 =>
              cases hnb : nextBefore (e :: es2) b with
              | none => simp [loopA, ho, hnb] at hj
              | some b2 =>
                  have hreq : (loopA oracle (fuel + 1) i b).requests
                      = b :: (loopA oracle fuel (i + 1) b2).requests := by
                    simp [loopA, ho, hnb]
                  cases j with
                  | zero =>
                      obtain ⟨t, hlast, hb2⟩ := nextBefore_some hnb
                      refine ⟨e :: es2, t, by simpa using ho, hlast, ?_⟩
                      rw [hreq] at hj ⊢
                      simp only [List.getD_cons_succ, List.getD_cons_zero]
                      simp only [List.length_cons] at hj
                      cases fuel with
                      | zero => simp [loopA] at hj
                      | succ f =>
                          rw [loopA_requests_head oracle f (i + 1) b2, hb2]
                  | succ j2 =>
                      have hj2 : j2 + 1
                          < (loopA oracle fuel (i + 1) b2).requests.length := by
                        rw [hreq] at hj
                        simpa using hj
                      obtain ⟨entries, t, h1, h2, h3⟩ := ih (i + 1) b2 j2 hj2
                      refine ⟨entries, t, ?_, h2, ?_⟩
                      · have hidx : i + (j2 + 1) = i + 1 + j2 := by omega
                        rw [hidx]
                        exact h1
                      · rw [hreq]
                        simp only [List.getD_cons_succ]
                        exact h3

/-- C5 witness: with a one-transaction first page, the second request's
cursor is that transaction's block time. -/
theorem cursor_advance_witness :
    ∃ entries t, oracleC5 0 = FetchResult.page entries
      ∧ entries.getLast? = some (TxEntry.tx t)
      ∧ (loopA oracleC5 10 0 1700000000000).requests.getD 1 0
          = t.block_time.getD
              ((loopA oracleC5 10 0 1700000000000).requests.getD 0 0) :=
  cursor_advance oracleC5 10 0 1700000000000 0 (by decide)

/-- C2 counterexample: `trace_wallet` on a page containing a transaction
timestamped 2021-01-01 — strictly before the 2022-01-01 cutoff — emits and
persists its edge in both datasets: the walk never stops at the cutoff. -/
theorem trace_wallet_emits_precutoff :
    trace_wallet oracleC2 1700000000000 10 ROOT
        = Except.ok ([recC2], [recC2])
  ∧ recC2.timestamp = "2021-01-01T00:00:00+00:00"
  ∧ timestampBeforeCutoffSpec (recC2.timestamp) = true := by
  refine ⟨by with_unfolding_all rfl, rfl, by decide⟩

/-- C2 (amended): the walk of `trace_wallet`
(`fetch_transactions_all_participants`) never consults the cutoff policy:
a transaction's `block_time` only determines the timestamp string written
on its edges, never whether its edges are emitted — so edges of
transactions timestamped before the cutoff are emitted and persisted
(see the counterexample for an end-to-end run). -/
theorem attribution_ignores_block_time (t : RawTx) (bt : Option Nat) :
    attribute_transaction { t with block_time := bt }
      = (attribute_transaction t).map
          (fun r => { r with timestamp := format_timestamp (bt.getD 0) }) := by
  rcases t with ⟨tid, txid, bt0, ins, outs⟩
  show attribute_transaction ⟨tid, txid, bt, ins, outs⟩ = _
  by_cases h : total_input_sompi ⟨tid, txid, bt0, ins, outs⟩ = 0
  · have h2 : total_input_sompi ⟨tid, txid, bt, ins, outs⟩ = 0 := h
    unfold attribute_transaction
    rw [if_pos h, if_pos h2]
    rfl
  · have h2 : total_input_sompi ⟨tid, txid, bt, ins, outs⟩ ≠ 0 := h
    unfold attribute_transaction
    rw [if_neg h, if_neg h2, List.map_flatMap]
    congr 1
    funext out
    unfold attributeOut
    rw [List.map_map]
    rfl
